/-
  Verification of the MCP v2 provider-dispatch pipeline
  (backend/mcp_v2: hooks/pre_processing.py, hooks/post_processing.py,
  hooks/validation.py, registry.py, provider/base.py).

  The Python code is shallowly embedded: Python dict values become the
  inductive `PyVal`; Python `dict`s become ordered association lists with
  Python's update semantics (overwrite in place, else append); the Django
  cache becomes an association list of (key, value, expiry) entries queried
  at an explicit clock value; `datetime.now()` / `time.time()` / `uuid4()`
  are passed in as explicit parameters.  `settings.*` tunables are passed
  as explicit configuration arguments with the defaults from the source.
-/
import Mathlib

namespace MCPv2

/-- Python values occurring in request/response parameter dicts. -/
inductive PyVal where
  | str (s : String)
  | int (n : Int)
  | bool (b : Bool)
  | none
  | dict (entries : List (String × PyVal))
  | list (elems : List PyVal)

/-- Python truthiness of a `PyVal` (`if value:` on dict members). -/
def PyVal.truthy : PyVal → Bool
  | .str s => s != ""
  | .int n => n != 0
  | .bool b => b
  | .none => false
  | .dict es => !es.isEmpty
  | .list xs => !xs.isEmpty

/-- Lookup in a Python dict modelled as an ordered association list. -/
def dictLookup (l : List (String × PyVal)) (k : String) : Option PyVal :=
  match l with
  | [] => Option.none
  | (k', v) :: rest => if k' = k then some v else dictLookup rest k

/-- Python `d[k] = v`: overwrite in place if the key exists, else append. -/
def dictSet (l : List (String × PyVal)) (k : String) (v : PyVal) :
    List (String × PyVal) :=
  match l with
  | [] => [(k, v)]
  | (k', v') :: rest =>
      if k' = k then (k', v) :: rest else (k', v') :: dictSet rest k v

/-- Django cache modelled as (key, value, absolute-expiry) entries; the
    counters the pipeline stores are all naturals. -/
abbrev Cache := List (String × Nat × Nat)

/-- `cache.get(key, 0)` at clock `t`: an entry is live while `t < expiry`. -/
def cacheGetNat (c : Cache) (key : String) (t : Nat) : Nat :=
  match c with
  | [] => 0
  | (k, v, e) :: rest =>
      if k = key then (if t < e then v else 0) else cacheGetNat rest key t

/-- `cache.set(key, v, timeout)` issued at clock `t`: the entry expires at
    `t + timeout`; an existing entry for the key is replaced in place. -/
def cacheSet (c : Cache) (key : String) (v : Nat) (expiry : Nat) : Cache :=
  match c with
  | [] => [(key, v, expiry)]
  | (k, v', e') :: rest =>
      if k = key then (k, v, expiry) :: rest
      else (k, v', e') :: cacheSet rest key v expiry

/-- Whether the cache holds any entry (live or expired) for `key`. -/
def cacheHasKey (c : Cache) (key : String) : Bool :=
  match c with
  | [] => false
  | (k, _, _) :: rest => if k = key then true else cacheHasKey rest key

/-- `MCPServer.Status` (models.py): ACTIVE/INACTIVE/ERROR/PENDING. -/
inductive Status where
  | ACTIVE | INACTIVE | ERROR | PENDING
  deriving Repr, DecidableEq

/-- The fields of an `MCPServer` record that the hook pipeline reads or
    writes (models.py / hooks). -/
structure MCPServer where
  id : Nat
  name : String
  server_type : String
  status : Status
  metadata : List (String × PyVal)
  is_active : Bool

/-- The request `context` bag.  The pipeline only ever reads/writes these
    five keys, so the dict is modelled as a record of optional fields; a
    `context` that is an empty Python dict is the all-`none` record. -/
structure ReqContext where
  request_id : Option String := Option.none
  timestamp : Option Nat := Option.none
  retry_count : Option Nat := Option.none
  should_retry : Option Bool := Option.none
  retry_delay : Option Nat := Option.none
  deriving Repr, DecidableEq

/-- The all-`none` record: a fresh empty context dict. -/
def emptyCtx : ReqContext := {}

/-- Python truthiness of the context dict: nonempty, i.e. some key set. -/
def ReqContext.nonempty (c : ReqContext) : Bool :=
  c.request_id.isSome || c.timestamp.isSome || c.retry_count.isSome ||
    c.should_retry.isSome || c.retry_delay.isSome

/-- `MCPRequest` (provider/base.py). -/
structure MCPRequest where
  method : String
  params : List (String × PyVal)
  context : Option ReqContext := Option.none

/-- `MCPResponse` (provider/base.py). -/
structure MCPResponse where
  success : Bool
  data : Option PyVal := Option.none
  error : Option String := Option.none
  metadata : Option (List (String × PyVal)) := Option.none

/-! ### String helpers (Python `in`, `.lower()`) -/

/-- Whether `n` is a prefix of `h` (over character lists). -/
def listPrefixOf (n h : List Char) : Bool :=
  match n, h with
  | [], _ => true
  | _ :: _, [] => false
  | a :: as, b :: bs => a = b && listPrefixOf as bs

/-- Whether `n` occurs as a contiguous sublist of `h`. -/
def listInfixOf (n h : List Char) : Bool :=
  match h with
  | [] => n.isEmpty
  | _ :: rest => listPrefixOf n h || listInfixOf n rest

/-- Python `needle in hay` on strings. -/
def strContains (hay needle : String) : Bool :=
  listInfixOf needle.toList hay.toList

/-- Python `s.lower()` (ASCII case folding suffices for the patterns the
    pipeline matches against). -/
def strLower (s : String) : String := String.mk (s.toList.map Char.toLower)

/-! ### ErrorHandler (post_processing.py lines 267-351) -/

/-- `ErrorHandler.__init__`: `MCP_MAX_RETRIES` (default 3) and
    `MCP_BACKOFF_FACTOR` (default 2). -/
structure RetryConfig where
  max_retries : Nat := 3
  backoff_factor : Nat := 2
  deriving Repr, DecidableEq

/-- `ErrorHandler._is_retryable_error` (lines 315-330). -/
def is_retryable_error (error : Option String) : Bool :=
  match error with
  | Option.none => false
  | some e =>
      if e = "" then false
      else
        let retryable_patterns : List String :=
          ["timeout", "connection reset", "temporary failure", "rate limit",
           "503", "502", "504"]
        retryable_patterns.any (fun pattern => strContains (strLower e) pattern)

/-- Cache key `f"mcp_circuit_breaker:{server.id}"`. -/
def cbKey (serverId : Nat) : String :=
  "mcp_circuit_breaker:" ++ toString serverId

/-- `ErrorHandler._check_circuit_breaker` (lines 332-350), with
    `MCP_ERROR_THRESHOLD` (default 10) and `MCP_ERROR_WINDOW` (default
    300 s) passed as `threshold`/`window`, the clock as `t` and
    `datetime.now().isoformat()` as `nowStr`. -/
def check_circuit_breaker (threshold window t : Nat) (nowStr : String)
    (server : MCPServer) (cache : Cache) : MCPServer × Cache :=
  let error_count := cacheGetNat cache (cbKey server.id) t + 1
  let cache' := cacheSet cache (cbKey server.id) error_count (t + window)
  if error_count ≥ threshold then
    ({ server with
       status := Status.ERROR,
       metadata := dictSet server.metadata "circuit_breaker_triggered"
         (PyVal.str nowStr) }, cache')
  else (server, cache')

/-- `request.context.get("retry_count", 0) if request.context else 0`
    (line 282); an empty context dict is falsy. -/
def ctxRetryCount : Option ReqContext → Nat
  | some c => if c.nonempty then c.retry_count.getD 0 else 0
  | Option.none => 0

/-- Truthiness of `request.context and request.context.get("should_retry")`
    (the negation of the guard on line 305). -/
def ctxShouldRetry : Option ReqContext → Bool
  | some c => c.nonempty && c.should_retry.getD false
  | Option.none => false

/-- Result of `ErrorHandler.handle_error`: the (mutated-in-place) request,
    the server, the cache and the returned response. -/
structure HEResult where
  request : MCPRequest
  server : MCPServer
  cache : Cache
  response : MCPResponse

/-- `ErrorHandler.handle_error` (lines 274-313).  The request context is
    mutated in place in Python; here the updated request is returned.  The
    response is returned unchanged (the function only reads
    `response.error`). -/
def handle_error (cfg : RetryConfig) (threshold window t : Nat)
    (nowStr : String) (server : MCPServer) (req : MCPRequest)
    (resp : MCPResponse) (cache : Cache) : HEResult :=
  let ctx1 :=
    if is_retryable_error resp.error then
      let retry_count := ctxRetryCount req.context
      if retry_count < cfg.max_retries then
        -- `if not request.context: request.context = {}` then three writes
        let base := req.context.getD emptyCtx
        some { base with
               retry_count := some (retry_count + 1),
               should_retry := some true,
               retry_delay := some (cfg.backoff_factor ^ retry_count) }
      else req.context
    else req.context
  let req1 := { req with context := ctx1 }
  if !ctxShouldRetry ctx1 then
    let sc := check_circuit_breaker threshold window t nowStr server cache
    ⟨req1, sc.1, sc.2, resp⟩
  else ⟨req1, server, cache, resp⟩

/-- `n` successive non-retried error recordings against one backend, all
    issued at clock `t` (hence all inside one error window). -/
def recordErrors (threshold window t : Nat) (nowStr : String) :
    Nat → MCPServer × Cache → MCPServer × Cache
  | 0, sc => sc
  | n + 1, sc =>
      let sc' := recordErrors threshold window t nowStr n sc
      check_circuit_breaker threshold window t nowStr sc'.1 sc'.2

/-! ### RateLimiter (pre_processing.py lines 81-113) -/

/-- `RateLimiter.__init__`: per-operation-class limits,
    `MCP_CONNECT_RATE_LIMIT` 10 / window 60 s and `MCP_REQUEST_RATE_LIMIT`
    100 / window 60 s by default. -/
structure RateLimitConfig where
  connect_requests : Nat := 10
  connect_window : Nat := 60
  request_requests : Nat := 100
  request_window : Nat := 60
  deriving Repr, DecidableEq

/-- `self.limits[operation]`, `None` when the operation class is unknown. -/
def limitsFor (cfg : RateLimitConfig) (operation : String) :
    Option (Nat × Nat) :=
  if operation = "connect" then some (cfg.connect_requests, cfg.connect_window)
  else if operation = "request" then
    some (cfg.request_requests, cfg.request_window)
  else Option.none

/-- Cache key `f"mcp_rate_limit:{server.id}:{operation}"`. -/
def rlKey (serverId : Nat) (operation : String) : String :=
  "mcp_rate_limit:" ++ toString serverId ++ ":" ++ operation

/-- `RateLimiter.check_limit` (lines 94-113) issued at clock `t`; returns
    the verdict and the (possibly updated) cache. -/
def check_limit (cfg : RateLimitConfig) (serverId : Nat) (operation : String)
    (t : Nat) (cache : Cache) : Bool × Cache :=
  match limitsFor cfg operation with
  | Option.none => (true, cache)
  | some (maxRequests, window) =>
      let key := rlKey serverId operation
      let current_count := cacheGetNat cache key t
      if current_count ≥ maxRequests then (false, cache)
      else (true, cacheSet cache key (current_count + 1) (t + window))

/-- `n` successive `check_limit` calls, all issued at clock `t` (hence all
    inside one rate window); keeps only the evolving cache. -/
def checkRepeat (cfg : RateLimitConfig) (serverId : Nat) (operation : String)
    (t : Nat) : Nat → Cache → Cache
  | 0, c => c
  | n + 1, c =>
      (check_limit cfg serverId operation t
        (checkRepeat cfg serverId operation t n c)).2

/-! ### MCPValidationHooks (validation.py) -/

/-- `[a-zA-Z0-9]` (ASCII, also under Python's Unicode regex mode). -/
def pyIsAlnum (c : Char) : Bool := c.isAlpha || c.isDigit

/-- Python `re` `\s` on `str`: the Unicode whitespace characters
    (CPython's sre whitespace category). -/
def pyWhitespace (c : Char) : Bool :=
  let n := c.val
  (9 ≤ n && n ≤ 13) || (28 ≤ n && n ≤ 32) ||
  n = 0x85 || n = 0xa0 || n = 0x1680 || (0x2000 ≤ n && n ≤ 0x200a) ||
  n = 0x2028 || n = 0x2029 || n = 0x202f || n = 0x205f || n = 0x3000

/-- Membership in the character class `[a-zA-Z0-9\s\-_]` of
    `_validate_server_name`'s regex (line 78). -/
def nameCharOK (c : Char) : Bool :=
  pyIsAlnum c || pyWhitespace c || c = '-' || c = '_'

/-- `re.match(r"^[a-zA-Z0-9\s\-_]+$", name)` as a predicate: the name is
    nonempty and every character is in the class.  (`$` would also accept a
    trailing newline, but `\n` is already in the class via `\s`.) -/
def nameRegexMatches (name : String) : Bool :=
  !name.isEmpty && name.toList.all nameCharOK

/-- `MCPValidationHooks._validate_server_name` (lines 65-84). -/
def validate_server_name (name : String) : List String :=
  if name = "" then ["Server name is required"]
  else
    (if name.length < 3 then ["Server name must be at least 3 characters"]
     else [])
    ++ (if name.length > 255 then
          ["Server name must not exceed 255 characters"] else [])
    ++ (if !nameRegexMatches name then
          ["Server name can only contain alphanumeric characters, " ++
           "spaces, hyphens, and underscores"] else [])

/-- Python `netloc.endswith(domain)`. -/
def strEndsWith (s suffix : String) : Bool :=
  listPrefixOf suffix.toList.reverse s.toList.reverse

/-- The (scheme, netloc) pair `urlparse` extracts from a non-empty
    endpoint URL; the parser itself is not modelled. -/
structure ParsedURL where
  scheme : String
  netloc : String

/-- `MCPValidationHooks._validate_endpoint` (lines 86-129) for a non-empty
    endpoint, embedded over the parsed URL (for the well-formed inputs the
    claims quantify over, `urlparse` does not raise, so the `except` arm is
    dead). -/
def validate_endpoint_parsed (allowed blocked : List String)
    (u : ParsedURL) : List String :=
  (if u.scheme = "" then ["Endpoint must include a scheme (http/https)"]
   else [])
  ++ (if !(["http", "https", "ws", "wss"].contains u.scheme) then
        ["Endpoint scheme must be http, https, ws, or wss"] else [])
  ++ (if u.netloc = "" then ["Endpoint must include a valid host"] else [])
  ++ (if !allowed.isEmpty &&
         !(allowed.any fun domain => strEndsWith u.netloc domain) then
        ["Endpoint domain not in allowed list: " ++ u.netloc] else [])
  ++ (if !blocked.isEmpty &&
         (blocked.any fun domain => strEndsWith u.netloc domain) then
        ["Endpoint domain is blocked: " ++ u.netloc] else [])

/-- The character set named by claim C6 (spec words: alphanumerics, the
    space character, hyphen, underscore) for comparison with the source's
    `nameCharOK`. -/
def claimedNameCharOK (c : Char) : Bool :=
  pyIsAlnum c || c = ' ' || c = '-' || c = '_'

/-! ### ResponseTransformer (post_processing.py lines 104-182) -/

/-- Longest leading run of `[^\s]` characters and the remainder. -/
def takeNonSpace : List Char → List Char × List Char
  | [] => ([], [])
  | c :: cs =>
      if pyWhitespace c then ([], c :: cs)
      else
        let pr := takeNonSpace cs
        (c :: pr.1, pr.2)

/-- Case-insensitive literal match at the head; returns the remainder. -/
def matchLitCI : List Char → List Char → Option (List Char)
  | [], rest => some rest
  | _ :: _, [] => Option.none
  | a :: as, b :: bs =>
      if a.toLower = b.toLower then matchLitCI as bs else Option.none

/-- One `re.sub(lit + r"[^\s]+", "[REDACTED]", s, flags=re.IGNORECASE)`
    pass: scan left to right, and at each match of the literal followed by
    a non-empty run of non-whitespace replace the whole match and resume
    after it.  `fuel` bounds the recursion; any `fuel ≥ length + 1` gives
    the fixed point. -/
def subRedact (lit : List Char) : Nat → List Char → List Char
  | 0, s => s
  | fuel + 1, s =>
      match s with
      | [] => []
      | c :: cs =>
          match matchLitCI lit s with
          | some rest =>
              let pr := takeNonSpace rest
              if pr.1.isEmpty then c :: subRedact lit fuel cs
              else "[REDACTED]".toList ++ subRedact lit fuel pr.2
          | Option.none => c :: subRedact lit fuel cs

/-- `ResponseTransformer._sanitize_error_message` (lines 169-182): the
    three ignore-case substitutions `token=[^\s]+`, `api_key=[^\s]+`,
    `password=[^\s]+` applied in order. -/
def sanitize_error_message (error : String) : String :=
  let sensitive_patterns := ["token=", "api_key=", "password="]
  sensitive_patterns.foldl
    (fun acc lit =>
      String.mk (subRedact lit.toList (acc.toList.length + 1) acc.toList))
    error

/-- `ResponseTransformer._apply_default_transformations` (lines 152-167):
    ensure metadata, stamp `processed_at` with `nowStr`, sanitize a truthy
    error string. -/
def apply_default_transformations (nowStr : String) (r : MCPResponse) :
    MCPResponse :=
  let md := dictSet (r.metadata.getD []) "processed_at" (PyVal.str nowStr)
  let err := match r.error with
    | some e => if e = "" then some e else some (sanitize_error_message e)
    | Option.none => Option.none
  { r with metadata := some md, error := err }

/-- `ResponseTransformer._transform_claude_response` (lines 120-132).  For
    the pipeline's responses `data` is a dict; non-dict data (on which
    Python's `in`/indexing would fail or be vacuous) is left unchanged. -/
def transform_claude_response (r : MCPResponse) : MCPResponse :=
  if r.success && (r.data.map PyVal.truthy).getD false then
    match r.data with
    | some (PyVal.dict es) =>
        match dictLookup es "usage" with
        | some usage =>
            let md := dictSet (r.metadata.getD []) "usage" usage
            { r with metadata := some md }
        | Option.none => r
    | _ => r
  else r

/-- `headers.get(k)` where a missing key yields Python `None`. -/
def headersGet (headers : PyVal) (k : String) : PyVal :=
  match headers with
  | PyVal.dict hs => (dictLookup hs k).getD PyVal.none
  | _ => PyVal.none

/-- `ResponseTransformer._transform_github_response` (lines 134-150). -/
def transform_github_response (r : MCPResponse) : MCPResponse :=
  if r.success && (r.data.map PyVal.truthy).getD false then
    match r.metadata with
    | some md =>
        if !md.isEmpty then
          match dictLookup md "headers" with
          | some headers =>
              let rate_limit := PyVal.dict
                [("limit", headersGet headers "X-RateLimit-Limit"),
                 ("remaining", headersGet headers "X-RateLimit-Remaining"),
                 ("reset", headersGet headers "X-RateLimit-Reset")]
              let md2 := dictSet md "rate_limit" rate_limit
              { r with metadata := some md2 }
          | Option.none => r
        else r
    | Option.none => r
  else r

/-- `ResponseTransformer.transform` (lines 105-118): dispatch on the
    backend type; claude and github responses take their specific branch
    and return without the default pass. -/
def transform (nowStr : String) (server : MCPServer) (r : MCPResponse) :
    MCPResponse :=
  if server.server_type = "claude" then transform_claude_response r
  else if server.server_type = "github" then transform_github_response r
  else apply_default_transformations nowStr r

/-! ### MCPServerRegistry (registry.py) -/

/-- A candidate provider class, abstracted to the class-level facts the
    registration path can observe: whether it subclasses
    `BaseMCPProvider`, and which Provider-Contract methods
    (provider/base.py's abstract methods and describe/configuration-schema
    class methods) it actually overrides. -/
structure ProviderImpl where
  subclass_of_base : Bool
  has_connect : Bool
  has_disconnect : Bool
  has_execute_request : Bool
  has_list_tools : Bool
  has_list_resources : Bool
  has_get_name : Bool
  has_get_description : Bool
  has_get_configuration_schema : Bool
  deriving Repr, DecidableEq

/-- The full Provider Contract named by the spec (§4.1: connect,
    disconnect, execute, enumerate tools/resources, describe and
    configuration schema) — the comparison definition for claim C8,
    written from the spec's words. -/
def implementsFullContract (p : ProviderImpl) : Bool :=
  p.has_connect && p.has_disconnect && p.has_execute_request &&
  p.has_list_tools && p.has_list_resources && p.has_get_name &&
  p.has_get_description && p.has_get_configuration_schema

/-- `MCPServerRegistry._providers`, an ordered name → class mapping. -/
abbrev RegistryState := List (String × ProviderImpl)

/-- `cls._providers[name] = provider_class`: overwrite in place, else
    append. -/
def regSet (st : RegistryState) (name : String) (p : ProviderImpl) :
    RegistryState :=
  match st with
  | [] => [(name, p)]
  | (n', p') :: rest =>
      if n' = name then (n', p) :: rest else (n', p') :: regSet rest name p

/-- `MCPServerRegistry.register_provider` (lines 62-74): the only check is
    `issubclass(provider_class, BaseMCPProvider)`; on failure a
    `ValueError` is raised (modelled as `Except.error`) and the mapping is
    untouched. -/
def register_provider (st : RegistryState) (name : String)
    (p : ProviderImpl) : Except String RegistryState :=
  if !p.subclass_of_base then
    Except.error ("Provider " ++ name ++ " must inherit from BaseMCPProvider")
  else Except.ok (regSet st name p)

/-- The names carried by `MCPServerRegistry.list_providers` (lines 83-95);
    the describe-info values attached to each name are irrelevant to the
    claims. -/
def list_providers (st : RegistryState) : List String := st.map Prod.fst

/-! ### RequestTransformer (pre_processing.py lines 116-169) -/

/-- `RequestTransformer._apply_default_transformations` (lines 157-169):
    add `MCP_DEFAULT_REQUEST_TIMEOUT` (default 30) when `"timeout"` is not
    among the params. -/
def apply_default_request_transformations (defaultTimeout : Int)
    (req : MCPRequest) : MCPRequest :=
  match dictLookup req.params "timeout" with
  | Option.none =>
      { req with params :=
          dictSet req.params "timeout" (PyVal.int defaultTimeout) }
  | some _ => req

/-- `RequestTransformer._transform_claude_request` (lines 132-143): when
    the hook context dict is truthy and carries `"user_id"`, write a
    `"user_context"` param from it (`session_id` via `.get`, `None` when
    absent). -/
def transform_claude_request (req : MCPRequest)
    (context : Option (List (String × PyVal))) : MCPRequest :=
  match context with
  | some ctx =>
      if !ctx.isEmpty then
        match dictLookup ctx "user_id" with
        | some uid =>
            let uc := PyVal.dict
              [("user_id", uid),
               ("session_id", (dictLookup ctx "session_id").getD PyVal.none)]
            { req with params := dictSet req.params "user_context" uc }
        | Option.none => req
      else req
  | Option.none => req

/-- `RequestTransformer._transform_github_request` (lines 145-155): for
    `search_code`, default `per_page` to 30 and `sort` to `best-match`
    (each written back even when already present, with its present
    value). -/
def transform_github_request (req : MCPRequest) : MCPRequest :=
  if req.method = "search_code" then
    let p1 := dictSet req.params "per_page"
      ((dictLookup req.params "per_page").getD (PyVal.int 30))
    let p2 := dictSet p1 "sort"
      ((dictLookup p1 "sort").getD (PyVal.str "best-match"))
    { req with params := p2 }
  else req

/-- `RequestTransformer.transform` (lines 117-130): dispatch on the
    backend type, falling through to the default transformation. -/
def request_transform (defaultTimeout : Int) (server : MCPServer)
    (req : MCPRequest) (context : Option (List (String × PyVal))) :
    MCPRequest :=
  if server.server_type = "claude" then transform_claude_request req context
  else if server.server_type = "github" then transform_github_request req
  else apply_default_request_transformations defaultTimeout req

/-! ### SecurityChecker and pre_request (pre_processing.py lines 15-74,
    172-242) -/

/-- A single-quote character as a string (for Python `repr` output and the
    messages that quote values). -/
def sq : String := String.singleton '\''

/-- `SecurityChecker.sensitive_param_patterns` (lines 179-185). -/
def sensitive_param_patterns : List String :=
  ["password", "secret", "token", "key", "credential"]

/-- `pattern in key.lower()` for some sensitive pattern. -/
def keyIsSensitive (k : String) : Bool :=
  sensitive_param_patterns.any (fun pattern => strContains (strLower k) pattern)

/-- The per-entry pattern loop of `check_dict` (lines 229-235): one issue
    per sensitive pattern occurring in the lowered key, provided the value
    is truthy. -/
def patternIssues (k : String) (v : PyVal) (current_path : String) :
    List String :=
  sensitive_param_patterns.filterMap (fun pattern =>
    if strContains (strLower k) pattern && v.truthy then
      some ("Potential sensitive data in parameter: " ++ current_path)
    else Option.none)

mutual

/-- The inner `check_dict` of `SecurityChecker._check_sensitive_data`
    (lines 225-241): pattern issues for each key, then recursion into
    dict values, in iteration order. -/
def checkSensitiveEntries : List (String × PyVal) → String → List String
  | [], _ => []
  | (k, v) :: rest, path =>
      let current_path := if path = "" then k else path ++ "." ++ k
      patternIssues k v current_path
        ++ checkSensitiveNested v current_path
        ++ checkSensitiveEntries rest path

/-- `if isinstance(value, dict): check_dict(value, current_path)`. -/
def checkSensitiveNested : PyVal → String → List String
  | PyVal.dict d, path => checkSensitiveEntries d path
  | _, _ => []

end

/-- `SecurityChecker._check_sensitive_data` (lines 222-242). -/
def check_sensitive_data (params : List (String × PyVal)) : List String :=
  checkSensitiveEntries params ""

mutual

/-- Python `repr` of a parameter value (as `str(params)` renders dict
    members); string values are assumed quote/escape-free, which the
    pipeline's parameters are. -/
def pyRepr : PyVal → String
  | PyVal.str s => sq ++ s ++ sq
  | PyVal.int n => toString n
  | PyVal.bool b => if b then "True" else "False"
  | PyVal.none => "None"
  | PyVal.dict es => "\x7b" ++ pyReprEntries es ++ "\x7d"
  | PyVal.list xs => "[" ++ pyReprList xs ++ "]"

/-- Comma-separated `'key': value` renderings of a dict body. -/
def pyReprEntries : List (String × PyVal) → String
  | [] => ""
  | [(k, v)] => sq ++ k ++ sq ++ ": " ++ pyRepr v
  | (k, v) :: rest =>
      sq ++ k ++ sq ++ ": " ++ pyRepr v ++ ", " ++ pyReprEntries rest

/-- Comma-separated renderings of a list body. -/
def pyReprList : List PyVal → String
  | [] => ""
  | [v] => pyRepr v
  | v :: rest => pyRepr v ++ ", " ++ pyReprList rest

end

/-- `SecurityChecker._check_injection_attacks` (lines 204-220):
    `str(params).lower()` scanned for the four SQL patterns. -/
def check_injection_attacks (params : List (String × PyVal)) : List String :=
  let sql_patterns : List String :=
    [sq ++ "; DROP TABLE",
     sq ++ " OR " ++ sq ++ "1" ++ sq ++ "=" ++ sq ++ "1",
     "UNION SELECT",
     "/*!"]
  let params_str := strLower ("\x7b" ++ pyReprEntries params ++ "\x7d")
  sql_patterns.filterMap (fun pattern =>
    if strContains params_str (strLower pattern) then
      some ("Potential SQL injection detected: " ++ pattern)
    else Option.none)

/-- `SecurityChecker.check_request` (lines 187-202) with the
    `MCP_BLOCKED_METHODS` setting (default `[]`) passed in. -/
def check_request (blocked_methods : List String) (req : MCPRequest) :
    List String :=
  (if blocked_methods.contains req.method then
     ["Method " ++ sq ++ req.method ++ sq ++ " is blocked"] else [])
  ++ check_injection_attacks req.params
  ++ check_sensitive_data req.params

/-- `MCPPreProcessingHooks.pre_request` (lines 40-74): rate-limit check,
    security checks (raising `ValueError`, modelled as `Except.error`),
    request transformation, then request-id/timestamp tagging.  `uuid4()`
    is passed as `newReqId` and `time.time()` as the clock `t`.  Returns
    the outcome together with the cache as the rate limiter leaves it. -/
def pre_request (rlCfg : RateLimitConfig) (blocked_methods : List String)
    (defaultTimeout : Int) (server : MCPServer) (req : MCPRequest)
    (context : Option (List (String × PyVal))) (t : Nat) (newReqId : String)
    (cache : Cache) : Except String MCPRequest × Cache :=
  let rl := check_limit rlCfg server.id "request" t cache
  if !rl.1 then (Except.error "Request rate limit exceeded", rl.2)
  else
    let security_issues := check_request blocked_methods req
    if !security_issues.isEmpty then
      (Except.error ("Security check failed: "
        ++ String.intercalate ", " security_issues), rl.2)
    else
      let transformed := request_transform defaultTimeout server req context
      let ctx0 := transformed.context.getD emptyCtx
      let newCtx : ReqContext :=
        { ctx0 with request_id := some newReqId, timestamp := some t }
      let tagged := { transformed with context := some newCtx }
      (Except.ok tagged, rl.2)

/-- An entry reachable in a params dict through nested dict values (the
    traversal `check_dict` performs). -/
inductive DeepEntry : List (String × PyVal) → String → PyVal → Prop where
  | here {entries : List (String × PyVal)} {k : String} {v : PyVal} :
      (k, v) ∈ entries → DeepEntry entries k v
  | nested {entries : List (String × PyVal)} {k' : String}
      {d : List (String × PyVal)} {k : String} {v : PyVal} :
      (k', PyVal.dict d) ∈ entries → DeepEntry d k v → DeepEntry entries k v

/-! ### Association-list and cache lemmas -/

theorem dictLookup_dictSet_self (l : List (String × PyVal)) (k : String)
    (v : PyVal) : dictLookup (dictSet l k v) k = some v := by
  induction l with
  | nil => simp [dictSet, dictLookup]
  | cons hd tl ih =>
      obtain ⟨k', v'⟩ := hd
      by_cases h : k' = k <;> simp [dictSet, dictLookup, h, ih]

theorem dictLookup_dictSet_ne (l : List (String × PyVal)) (k k' : String)
    (v : PyVal) (h : k' ≠ k) :
    dictLookup (dictSet l k' v) k = dictLookup l k := by
  induction l with
  | nil => simp [dictSet, dictLookup, h]
  | cons hd tl ih =>
      obtain ⟨k'', v''⟩ := hd
      by_cases h2 : k'' = k' <;> by_cases h3 : k'' = k <;>
        simp_all [dictSet, dictLookup]

theorem cacheGetNat_cacheSet_self (c : Cache) (key : String) (v e t : Nat)
    (h : t < e) : cacheGetNat (cacheSet c key v e) key t = v := by
  induction c with
  | nil => simp [cacheSet, cacheGetNat, h]
  | cons hd tl ih =>
      obtain ⟨k', v', e'⟩ := hd
      by_cases h2 : k' = key <;> simp [cacheSet, cacheGetNat, h2, h, ih]

theorem cacheGetNat_cacheSet_eval (c : Cache) (key : String) (v e t : Nat) :
    cacheGetNat (cacheSet c key v e) key t = if t < e then v else 0 := by
  induction c with
  | nil => simp [cacheSet, cacheGetNat]
  | cons hd tl ih =>
      obtain ⟨k', v', e'⟩ := hd
      by_cases h2 : k' = key <;> simp [cacheSet, cacheGetNat, h2, ih]

theorem cacheSet_cacheSet_self (c : Cache) (key : String) (v e v' e' : Nat) :
    cacheSet (cacheSet c key v e) key v' e' = cacheSet c key v' e' := by
  induction c with
  | nil => simp [cacheSet]
  | cons hd tl ih =>
      obtain ⟨k'', v'', e''⟩ := hd
      by_cases h : k'' = key <;> simp [cacheSet, h, ih]

theorem cacheGetNat_of_not_hasKey (c : Cache) (key : String) (t : Nat)
    (h : cacheHasKey c key = false) : cacheGetNat c key t = 0 := by
  induction c with
  | nil => simp [cacheGetNat]
  | cons hd tl ih =>
      obtain ⟨k', v', e'⟩ := hd
      by_cases h2 : k' = key <;> simp_all [cacheHasKey, cacheGetNat]

theorem cacheGetNat_cacheSet_ne (c : Cache) (key key' : String) (v e t : Nat)
    (h : key' ≠ key) :
    cacheGetNat (cacheSet c key' v e) key t = cacheGetNat c key t := by
  induction c with
  | nil => simp [cacheSet, cacheGetNat, h]
  | cons hd tl ih =>
      obtain ⟨k'', v'', e''⟩ := hd
      by_cases h2 : k'' = key' <;> by_cases h3 : k'' = key <;>
        simp_all [cacheSet, cacheGetNat]

/-- The cache component produced by `_check_circuit_breaker` is always the
    incremented counter re-armed to `t + window`. -/
theorem check_circuit_breaker_snd (threshold window t : Nat) (nowStr : String)
    (server : MCPServer) (cache : Cache) :
    (check_circuit_breaker threshold window t nowStr server cache).2
      = cacheSet cache (cbKey server.id)
          (cacheGetNat cache (cbKey server.id) t + 1) (t + window) := by
  by_cases h : cacheGetNat cache (cbKey server.id) t + 1 ≥ threshold <;>
    simp [check_circuit_breaker, h]

/-- The context stored back into the request by `handle_error`. -/
def handledCtx (cfg : RetryConfig) (ctx : Option ReqContext)
    (error : Option String) : Option ReqContext :=
  if is_retryable_error error then
    let retry_count := ctxRetryCount ctx
    if retry_count < cfg.max_retries then
      some { ctx.getD emptyCtx with
             retry_count := some (retry_count + 1),
             should_retry := some true,
             retry_delay := some (cfg.backoff_factor ^ retry_count) }
    else ctx
  else ctx

/-- `handle_error` factored through `handledCtx` (definitional). -/
theorem handle_error_eq (cfg : RetryConfig) (threshold window t : Nat)
    (nowStr : String) (server : MCPServer) (req : MCPRequest)
    (resp : MCPResponse) (cache : Cache) :
    handle_error cfg threshold window t nowStr server req resp cache
      = (let c := handledCtx cfg req.context resp.error
         let req1 : MCPRequest := { req with context := c }
         if !ctxShouldRetry c then
           let sc := check_circuit_breaker threshold window t nowStr server cache
           ⟨req1, sc.1, sc.2, resp⟩
         else ⟨req1, server, cache, resp⟩) := rfl

theorem handle_error_request_context (cfg : RetryConfig)
    (threshold window t : Nat) (nowStr : String) (server : MCPServer)
    (req : MCPRequest) (resp : MCPResponse) (cache : Cache) :
    (handle_error cfg threshold window t nowStr server req resp cache
      ).request.context = handledCtx cfg req.context resp.error := by
  rw [handle_error_eq]
  cases h : ctxShouldRetry (handledCtx cfg req.context resp.error) <;> simp [h]

theorem handle_error_cache (cfg : RetryConfig) (threshold window t : Nat)
    (nowStr : String) (server : MCPServer) (req : MCPRequest)
    (resp : MCPResponse) (cache : Cache) :
    (handle_error cfg threshold window t nowStr server req resp cache).cache
      = (if ctxShouldRetry (handledCtx cfg req.context resp.error) then cache
         else cacheSet cache (cbKey server.id)
           (cacheGetNat cache (cbKey server.id) t + 1) (t + window)) := by
  rw [handle_error_eq]
  cases h : ctxShouldRetry (handledCtx cfg req.context resp.error) <;>
    simp [h, check_circuit_breaker_snd]

/-- A concrete backend record used to instantiate theorems with hypotheses. -/
def sampleServer : MCPServer :=
  ⟨1, "Test Server", "claude", Status.ACTIVE, [], true⟩

/-- **C1.** For every failed Response whose error string is retryable
    (case-insensitively contains one of `timeout`, `connection reset`,
    `temporary failure`, `rate limit`, `503`, `502`, `504`) and every
    request context whose current retry count `r` is strictly below the
    configured maximum (default 3), `handle_error` stores back a context
    with retry count `r + 1`, `should_retry = true` and a retry delay of
    `backoff_factor ^ r` (1, 2, 4 s for `r` = 0, 1, 2 with the default
    factor 2); if `r` is at (or beyond) the maximum the context is returned
    untouched, so `should_retry` is left unset. -/
theorem retry_backoff_increments (cfg : RetryConfig) (threshold window t : Nat)
    (nowStr : String) (server : MCPServer) (req : MCPRequest)
    (resp : MCPResponse) (cache : Cache)
    (hret : is_retryable_error resp.error = true) :
    (ctxRetryCount req.context < cfg.max_retries →
      (handle_error cfg threshold window t nowStr server req resp cache
        ).request.context
        = some { req.context.getD emptyCtx with
                 retry_count := some (ctxRetryCount req.context + 1),
                 should_retry := some true,
                 retry_delay :=
                   some (cfg.backoff_factor ^ ctxRetryCount req.context) })
    ∧ (cfg.max_retries ≤ ctxRetryCount req.context →
      (handle_error cfg threshold window t nowStr server req resp cache
        ).request.context = req.context) := by
  refine ⟨fun h => ?_, fun h => ?_⟩ <;> rw [handle_error_request_context]
  · simp [handledCtx, hret, h]
  · simp [handledCtx, hret, Nat.not_lt.mpr h]

/-- Witness for `retry_backoff_increments`: with the defaults (max 3,
    factor 2), a `Connection timeout` error on a fresh context yields
    retry count 1, `should_retry = true`, delay `2 ^ 0 = 1`; on a context
    already at retry count 3 the context is unchanged (no `should_retry`). -/
theorem retry_backoff_increments_witness :
    ((handle_error {} 10 300 0 "now" sampleServer ⟨"test", [], Option.none⟩
        ⟨false, Option.none, some "Connection timeout", Option.none⟩ []
      ).request.context
      = some { retry_count := some 1, should_retry := some true,
               retry_delay := some 1 })
    ∧ ((handle_error {} 10 300 0 "now" sampleServer
          ⟨"test", [], some { retry_count := some 3 }⟩
          ⟨false, Option.none, some "Connection timeout", Option.none⟩ []
        ).request.context = some { retry_count := some 3 }) := by
  constructor
  · exact ((retry_backoff_increments {} 10 300 0 "now" sampleServer
      ⟨"test", [], Option.none⟩
      ⟨false, Option.none, some "Connection timeout", Option.none⟩ []
      (by decide)).1 (by decide)).trans (by decide)
  · exact ((retry_backoff_increments {} 10 300 0 "now" sampleServer
      ⟨"test", [], some { retry_count := some 3 }⟩
      ⟨false, Option.none, some "Connection timeout", Option.none⟩ []
      (by decide)).2 (by decide)).trans rfl

/-- **C3 counterexample.** A retryable error (`Connection timeout`) arrives
    with a context that carries `retry_count = 3` (the maximum, so this
    call does not mark a retry — the context comes back unchanged) and a
    stale `should_retry = true` from an earlier attempt.  The claim demands
    that exactly one error be recorded against the error-window counter
    regardless of carried-over flags, but the stale flag makes line 305's
    guard skip `_check_circuit_breaker`: the cache stays empty and the
    counter stays 0, not 1. -/
theorem stale_should_retry_suppresses_recording :
    ((handle_error {} 10 300 0 "now" sampleServer
        ⟨"test", [],
          some { retry_count := some 3, should_retry := some true }⟩
        ⟨false, Option.none, some "Connection timeout", Option.none⟩ []
      ).request.context
      = some { retry_count := some 3, should_retry := some true })
    ∧ (handle_error {} 10 300 0 "now" sampleServer
        ⟨"test", [],
          some { retry_count := some 3, should_retry := some true }⟩
        ⟨false, Option.none, some "Connection timeout", Option.none⟩ []
      ).cache = []
    ∧ cacheGetNat
        (handle_error {} 10 300 0 "now" sampleServer
          ⟨"test", [],
            some { retry_count := some 3, should_retry := some true }⟩
          ⟨false, Option.none, some "Connection timeout", Option.none⟩ []
        ).cache (cbKey sampleServer.id) 0 = 0 := by decide

/-- **C3 (amended).** For every failed Response, `handle_error` records
    exactly one error against the sliding error-window counter keyed by the
    backend's id precisely when the context it stores back does not carry a
    truthy `should_retry` flag; when the stored context carries
    `should_retry = true` — whether set on this call or carried over from
    an earlier attempt of the same request — the counter cache is left
    untouched. -/
theorem error_window_recording (cfg : RetryConfig) (threshold window t : Nat)
    (nowStr : String) (server : MCPServer) (req : MCPRequest)
    (resp : MCPResponse) (cache : Cache) (hw : 0 < window) :
    (ctxShouldRetry
        (handle_error cfg threshold window t nowStr server req resp cache
          ).request.context = false →
      cacheGetNat
        (handle_error cfg threshold window t nowStr server req resp cache
          ).cache (cbKey server.id) t
        = cacheGetNat cache (cbKey server.id) t + 1)
    ∧ (ctxShouldRetry
        (handle_error cfg threshold window t nowStr server req resp cache
          ).request.context = true →
      (handle_error cfg threshold window t nowStr server req resp cache
        ).cache = cache) := by
  have hc := handle_error_cache cfg threshold window t nowStr server req resp
    cache
  have hctx := handle_error_request_context cfg threshold window t nowStr
    server req resp cache
  constructor <;> intro h <;> rw [hctx] at h <;> rw [hc, h] <;> simp
  exact cacheGetNat_cacheSet_self _ _ _ _ _ (by omega)

/-- Witness for `error_window_recording`: a fatal `Invalid API key` error
    on a fresh context records exactly one error (counter 0 → 1); a
    retryable `Connection timeout` on a fresh context sets `should_retry`
    and leaves the counter cache untouched. -/
theorem error_window_recording_witness :
    (ctxShouldRetry
        (handle_error {} 10 300 0 "now" sampleServer ⟨"test", [], Option.none⟩
          ⟨false, Option.none, some "Invalid API key", Option.none⟩ []
        ).request.context = false)
    ∧ cacheGetNat
        (handle_error {} 10 300 0 "now" sampleServer ⟨"test", [], Option.none⟩
          ⟨false, Option.none, some "Invalid API key", Option.none⟩ []
        ).cache (cbKey sampleServer.id) 0
        = cacheGetNat ([] : Cache) (cbKey sampleServer.id) 0 + 1
    ∧ (ctxShouldRetry
        (handle_error {} 10 300 0 "now" sampleServer ⟨"test", [], Option.none⟩
          ⟨false, Option.none, some "Connection timeout", Option.none⟩ []
        ).request.context = true)
    ∧ (handle_error {} 10 300 0 "now" sampleServer ⟨"test", [], Option.none⟩
          ⟨false, Option.none, some "Connection timeout", Option.none⟩ []
        ).cache = [] := by
  refine ⟨by decide, ?_, by decide, ?_⟩
  · exact (error_window_recording {} 10 300 0 "now" sampleServer
      ⟨"test", [], Option.none⟩
      ⟨false, Option.none, some "Invalid API key", Option.none⟩ []
      (by decide)).1 (by decide)
  · exact (error_window_recording {} 10 300 0 "now" sampleServer
      ⟨"test", [], Option.none⟩
      ⟨false, Option.none, some "Connection timeout", Option.none⟩ []
      (by decide)).2 (by decide)

/-- Invariant for `recordErrors` strictly below the threshold: the backend
    is untouched and the window counter equals the number of recordings. -/
theorem recordErrors_below (threshold window t : Nat) (nowStr : String)
    (server : MCPServer) (cache : Cache)
    (hkey : cacheHasKey cache (cbKey server.id) = false) (hw : 0 < window) :
    ∀ k, 0 < k → k < threshold →
      recordErrors threshold window t nowStr k (server, cache)
        = (server, cacheSet cache (cbKey server.id) k (t + window)) := by
  intro k
  induction k with
  | zero => intro h; omega
  | succ n ih =>
      intro _ hlt
      by_cases hn : n = 0
      · subst hn
        simp [recordErrors, check_circuit_breaker,
              cacheGetNat_of_not_hasKey _ _ _ hkey,
              show ¬(0 + 1 ≥ threshold) from by omega]
      · have hn' : 0 < n := Nat.pos_of_ne_zero hn
        have hnt : n < threshold := by omega
        simp [recordErrors, ih hn' hnt, check_circuit_breaker,
              cacheGetNat_cacheSet_self _ _ _ _ _
                (show t < t + window from by omega),
              cacheSet_cacheSet_self,
              show ¬(n + 1 ≥ threshold) from by omega]

/-- **C4.** Starting from a clean error window for the backend, recording
    exactly `threshold` non-retried errors within the window sets the
    backend's status to ERROR and stamps
    `metadata["circuit_breaker_triggered"]` with the trip timestamp, while
    recording `threshold - 1` errors leaves the backend record (in
    particular its status) unchanged. -/
theorem circuit_breaker_threshold_trip (threshold window t : Nat)
    (nowStr : String) (server : MCPServer) (cache : Cache)
    (hth : 0 < threshold) (hw : 0 < window)
    (hkey : cacheHasKey cache (cbKey server.id) = false) :
    ((recordErrors threshold window t nowStr threshold (server, cache)
        ).1.status = Status.ERROR
      ∧ dictLookup
          (recordErrors threshold window t nowStr threshold (server, cache)
            ).1.metadata "circuit_breaker_triggered"
          = some (PyVal.str nowStr))
    ∧ (recordErrors threshold window t nowStr (threshold - 1) (server, cache)
        ).1 = server := by
  obtain ⟨m, rfl⟩ : ∃ m, threshold = m + 1 := ⟨threshold - 1, by omega⟩
  refine ⟨?_, ?_⟩
  · by_cases hm : m = 0
    · subst hm
      simp [recordErrors, check_circuit_breaker,
            cacheGetNat_of_not_hasKey _ _ _ hkey, dictLookup_dictSet_self]
    · have h := recordErrors_below (m + 1) window t nowStr server cache hkey
        hw m (Nat.pos_of_ne_zero hm) (by omega)
      simp [recordErrors, h, check_circuit_breaker,
            cacheGetNat_cacheSet_self _ _ _ _ _
              (show t < t + window from by omega),
            dictLookup_dictSet_self]
  · by_cases hm : m = 0
    · subst hm; simp [recordErrors]
    · have h := recordErrors_below (m + 1) window t nowStr server cache hkey
        hw m (Nat.pos_of_ne_zero hm) (by omega)
      simpa [show m + 1 - 1 = m from by omega] using congrArg Prod.fst h

/-- Witness for `circuit_breaker_threshold_trip` at the defaults
    (threshold 10, window 300 s): ten recordings trip the backend, nine
    leave it untouched. -/
theorem circuit_breaker_threshold_trip_witness :
    (((recordErrors 10 300 0 "T" 10 (sampleServer, [])).1.status
        = Status.ERROR)
      ∧ dictLookup (recordErrors 10 300 0 "T" 10 (sampleServer, [])
          ).1.metadata "circuit_breaker_triggered" = some (PyVal.str "T"))
    ∧ (recordErrors 10 300 0 "T" (10 - 1) (sampleServer, [])).1
        = sampleServer :=
  circuit_breaker_threshold_trip 10 300 0 "T" sampleServer []
    (by decide) (by decide) (by decide)

/-- Invariant for repeated `check_limit` calls below the configured
    maximum: the counter equals the number of calls, re-armed to
    `t + window`. -/
theorem checkRepeat_below (cfg : RateLimitConfig) (serverId : Nat)
    (operation : String) (t : Nat) (cache : Cache) (maxReq window : Nat)
    (hop : limitsFor cfg operation = some (maxReq, window))
    (hw : 0 < window)
    (hkey : cacheHasKey cache (rlKey serverId operation) = false) :
    ∀ k, 0 < k → k ≤ maxReq →
      checkRepeat cfg serverId operation t k cache
        = cacheSet cache (rlKey serverId operation) k (t + window) := by
  intro k
  induction k with
  | zero => intro h; omega
  | succ n ih =>
      intro _ hle
      by_cases hn : n = 0
      · subst hn
        simp [checkRepeat, check_limit, hop,
              cacheGetNat_of_not_hasKey _ _ _ hkey,
              show ¬(0 ≥ maxReq) from by omega]
      · have hn' : 0 < n := Nat.pos_of_ne_zero hn
        have hnt : n ≤ maxReq := by omega
        simp [checkRepeat, ih hn' hnt, check_limit, hop,
              cacheGetNat_cacheSet_self _ _ _ _ _
                (show t < t + window from by omega),
              cacheSet_cacheSet_self,
              show ¬(n ≥ maxReq) from by omega]

/-- **C5.** For a backend and an operation class configured with maximum
    `maxReq` and window `window`, starting from an absent counter: each of
    the first `maxReq` `check_limit` calls returns allowed and leaves the
    counter at the number of calls made, re-armed to expire at
    `t + window`; the `(maxReq+1)`-th call inside the window returns denied
    and performs no cache mutation; a check issued once the window has
    elapsed returns allowed again; and, in general, every allowed check
    increments the live counter by one and re-arms its TTL to the check's
    own time plus the window. -/
theorem rate_limit_window (cfg : RateLimitConfig) (serverId : Nat)
    (operation : String) (t : Nat) (cache : Cache) (maxReq window : Nat)
    (hop : limitsFor cfg operation = some (maxReq, window))
    (hmax : 0 < maxReq) (hw : 0 < window)
    (hkey : cacheHasKey cache (rlKey serverId operation) = false) :
    (∀ k, k < maxReq →
      (check_limit cfg serverId operation t
         (checkRepeat cfg serverId operation t k cache)).1 = true)
    ∧ (∀ k, 0 < k → k ≤ maxReq →
      checkRepeat cfg serverId operation t k cache
        = cacheSet cache (rlKey serverId operation) k (t + window))
    ∧ (check_limit cfg serverId operation t
         (checkRepeat cfg serverId operation t maxReq cache)
        = (false, checkRepeat cfg serverId operation t maxReq cache))
    ∧ (∀ t', t + window ≤ t' →
      (check_limit cfg serverId operation t'
         (checkRepeat cfg serverId operation t maxReq cache)).1 = true)
    ∧ (∀ c' t₂,
        cacheGetNat c' (rlKey serverId operation) t₂ < maxReq →
      check_limit cfg serverId operation t₂ c'
        = (true, cacheSet c' (rlKey serverId operation)
            (cacheGetNat c' (rlKey serverId operation) t₂ + 1)
            (t₂ + window))) := by
  have hinv := checkRepeat_below cfg serverId operation t cache maxReq window
    hop hw hkey
  refine ⟨?_, hinv, ?_, ?_, ?_⟩
  · intro k hk
    by_cases hk0 : k = 0
    · subst hk0
      simp [checkRepeat, check_limit, hop,
            cacheGetNat_of_not_hasKey _ _ _ hkey,
            show ¬(0 ≥ maxReq) from by omega]
    · rw [hinv k (Nat.pos_of_ne_zero hk0) (by omega)]
      simp [check_limit, hop,
            cacheGetNat_cacheSet_self _ _ _ _ _
              (show t < t + window from by omega),
            show ¬(k ≥ maxReq) from by omega]
  · rw [hinv maxReq hmax (le_refl _)]
    simp [check_limit, hop,
          cacheGetNat_cacheSet_self _ _ _ _ _
            (show t < t + window from by omega)]
  · intro t' ht'
    rw [hinv maxReq hmax (le_refl _)]
    simp [check_limit, hop, cacheGetNat_cacheSet_eval,
          show ¬(t' < t + window) from by omega,
          show ¬(0 ≥ maxReq) from by omega]
  · intro c' t₂ hcount
    simp [check_limit, hop, Nat.not_le.mpr hcount]

/-- Witness for `rate_limit_window` at the defaults for the `connect`
    class (maximum 10, window 60 s): the first call is allowed, ten calls
    leave the counter at 10, the 11th call is denied without mutation, and
    a check at `t = 60` (window elapsed) is allowed again. -/
theorem rate_limit_window_witness :
    ((check_limit {} 1 "connect" 0 []).1 = true)
    ∧ (checkRepeat {} 1 "connect" 0 10 []
        = cacheSet [] (rlKey 1 "connect") 10 60)
    ∧ (check_limit {} 1 "connect" 0 (checkRepeat {} 1 "connect" 0 10 [])
        = (false, checkRepeat {} 1 "connect" 0 10 []))
    ∧ ((check_limit {} 1 "connect" 60
         (checkRepeat {} 1 "connect" 0 10 [])).1 = true) := by
  have h := rate_limit_window {} 1 "connect" 0 [] 10 60 rfl (by decide)
    (by decide) rfl
  exact ⟨h.1 0 (by decide), h.2.1 10 (by decide) (by decide), h.2.2.1,
    h.2.2.2.1 60 (by decide)⟩

/-- **C6 counterexample.** The name `"ab\tcd"` has length 5 (inside the
    3–255 range) and contains a tab, a character outside the claimed set
    `[A-Za-z0-9 _-]`, yet `_validate_server_name` reports no problem: the
    source regex class is `[a-zA-Z0-9\s\-_]` and `\s` accepts the tab (and
    any other whitespace), not just the space character. -/
theorem tab_in_name_passes_validation :
    ("ab\tcd".toList.all claimedNameCharOK = false)
    ∧ "ab\tcd".length = 5
    ∧ validate_server_name "ab\tcd" = [] := by decide

/-- **C6 (amended).** For every backend name of length < 3 or > 255, or
    containing any character outside `[a-zA-Z0-9\s\-_]` (alphanumerics,
    whitespace — space, tab, newline and the other `\s` characters —
    hyphen, underscore), `_validate_server_name` returns a non-empty list
    of problems. -/
theorem name_validation_rejects (name : String)
    (h : name.length < 3 ∨ 255 < name.length ∨
         ¬ name.toList.all nameCharOK = true) :
    validate_server_name name ≠ [] := by
  unfold validate_server_name
  by_cases h0 : name = ""
  · simp [h0]
  · have hne : ¬name.isEmpty = true := by
      simpa [String.isEmpty_iff] using h0
    rcases h with h | h | h
    · simp [h0, h]
    · simp [h0, Nat.lt_asymm h, h]
    · have hall : name.toList.all nameCharOK = false :=
        Bool.eq_false_iff.mpr h
      have : nameRegexMatches name = false := by
        unfold nameRegexMatches
        rw [hall, Bool.and_false]
      simp [h0, this]

/-- Witness for `name_validation_rejects`: `"a@"` (too short and with a
    character outside the class) is rejected. -/
theorem name_validation_rejects_witness :
    validate_server_name "a@" ≠ [] :=
  name_validation_rejects "a@" (Or.inl (by decide))

/-- **C7.** For every endpoint whose host matches some entry of a
    non-empty configured block-list by suffix, `_validate_endpoint`
    reports the endpoint error `"Endpoint domain is blocked: <host>"` —
    with no assumption about the allow-list, so in particular even when
    the host also matches an entry of a non-empty allow-list. -/
theorem blocked_domain_rejected (allowed blocked : List String)
    (u : ParsedURL) (hb : blocked ≠ [])
    (hmatch : ∃ d ∈ blocked, strEndsWith u.netloc d = true) :
    ("Endpoint domain is blocked: " ++ u.netloc)
      ∈ validate_endpoint_parsed allowed blocked u
    ∧ validate_endpoint_parsed allowed blocked u ≠ [] := by
  obtain ⟨d, hd, hs⟩ := hmatch
  have h1 : (!blocked.isEmpty &&
      (blocked.any fun domain => strEndsWith u.netloc domain)) = true := by
    simp [List.isEmpty_iff, hb]
    exact ⟨d, hd, hs⟩
  have hmem : ("Endpoint domain is blocked: " ++ u.netloc)
      ∈ validate_endpoint_parsed allowed blocked u := by
    unfold validate_endpoint_parsed
    rw [h1]
    simp
  exact ⟨hmem, fun hnil => by rw [hnil] at hmem; simp at hmem⟩

/-- Witness for `blocked_domain_rejected`: host `api.good.com` suffix-
    matches `good.com`, which is on both the allow-list and the
    block-list; the blocked error is still reported. -/
theorem blocked_domain_rejected_witness :
    ("Endpoint domain is blocked: " ++ "api.good.com")
      ∈ validate_endpoint_parsed ["good.com"] ["good.com"]
        ⟨"https", "api.good.com"⟩
    ∧ validate_endpoint_parsed ["good.com"] ["good.com"]
        ⟨"https", "api.good.com"⟩ ≠ [] :=
  blocked_domain_rejected ["good.com"] ["good.com"]
    ⟨"https", "api.good.com"⟩ (by decide) ⟨"good.com", by decide, by decide⟩

/-- **C2 (code evaluated at the failing input).** `transform` dispatches
    claude (and github) responses to their provider-specific branch and
    returns without the default pass, contradicting the claim (and the
    repository's own test, test_hooks.py lines 206-228, which asserts
    `processed_at` for a claude server): on the test's input the metadata
    carries no `processed_at`, and a failed claude response keeps its raw
    `token=...` error text, although `_sanitize_error_message` would have
    redacted it and the default pass (taken by other backend types) both
    stamps the timestamp and sanitizes. -/
theorem claude_transform_skips_default_pass :
    (dictLookup ((transform "NOW"
        ⟨1, "Test Server", "claude", Status.ACTIVE, [], true⟩
        ⟨true, some (PyVal.dict
            [("tools", PyVal.list [PyVal.str "tool1", PyVal.str "tool2"])]),
         Option.none, some []⟩).metadata.getD []) "processed_at"
      = Option.none)
    ∧ ((transform "NOW" ⟨1, "Test Server", "claude", Status.ACTIVE, [], true⟩
        ⟨false, Option.none, some "auth token=abc123 failed", some []⟩).error
      = some "auth token=abc123 failed")
    ∧ (sanitize_error_message "auth token=abc123 failed"
      = "auth [REDACTED] failed")
    ∧ (dictLookup ((transform "NOW"
        ⟨1, "FS Server", "filesystem", Status.ACTIVE, [], true⟩
        ⟨false, Option.none, some "auth token=abc123 failed", some []⟩
        ).metadata.getD []) "processed_at" = some (PyVal.str "NOW"))
    ∧ ((transform "NOW" ⟨1, "FS Server", "filesystem", Status.ACTIVE, [], true⟩
        ⟨false, Option.none, some "auth token=abc123 failed", some []⟩).error
      = some "auth [REDACTED] failed") :=
  ⟨rfl, rfl, rfl, rfl, rfl⟩

/-- After `regSet st name p` the name appears in the mapping. -/
theorem regSet_mem (st : RegistryState) (name : String) (p : ProviderImpl) :
    name ∈ list_providers (regSet st name p) := by
  induction st with
  | nil => simp [regSet, list_providers]
  | cons hd tl ih =>
      obtain ⟨n', p'⟩ := hd
      by_cases h : n' = name <;> simp [regSet, list_providers, h]
      exact Or.inr (by simpa [list_providers] using ih)

/-- **C8 counterexample.** A class that inherits from `BaseMCPProvider`
    but overrides none of the Provider-Contract methods does not implement
    the full contract, yet `register_provider` accepts it — the only check
    is `issubclass` — and its name appears in `list_providers()`. -/
theorem incomplete_contract_registers :
    implementsFullContract
        ⟨true, false, false, false, false, false, false, false, false⟩
      = false
    ∧ register_provider [] "mock"
        ⟨true, false, false, false, false, false, false, false, false⟩
      = Except.ok [("mock",
          ⟨true, false, false, false, false, false, false, false, false⟩)]
    ∧ "mock" ∈ list_providers [("mock",
        ⟨true, false, false, false, false, false, false, false, false⟩)] :=
  ⟨rfl, rfl, by simp [list_providers]⟩

/-- **C8 (amended).** `register_provider` fails with the
    contract-violation (`must inherit from BaseMCPProvider`) error exactly
    when the implementation is not a subclass of `BaseMCPProvider`,
    leaving the mapping untouched; when it is a subclass the registration
    succeeds — whether or not the contract methods are implemented — and
    the name appears in `list_providers()`. -/
theorem register_provider_subclass_check (st : RegistryState)
    (name : String) (p : ProviderImpl) :
    (p.subclass_of_base = false →
      register_provider st name p
        = Except.error
            ("Provider " ++ name ++ " must inherit from BaseMCPProvider"))
    ∧ (p.subclass_of_base = true →
      register_provider st name p = Except.ok (regSet st name p)
        ∧ name ∈ list_providers (regSet st name p)) := by
  refine ⟨fun h => ?_, fun h => ⟨?_, regSet_mem st name p⟩⟩ <;>
    simp [register_provider, h]

/-- Witness for `register_provider_subclass_check`: a non-subclass is
    refused with the inherit error; a bare subclass registers and shows up
    in the provider list. -/
theorem register_provider_subclass_check_witness :
    (register_provider [] "invalid"
        ⟨false, true, true, true, true, true, true, true, true⟩
      = Except.error
          ("Provider " ++ "invalid" ++ " must inherit from BaseMCPProvider"))
    ∧ (register_provider [] "mock"
        ⟨true, false, false, false, false, false, false, false, false⟩
      = Except.ok (regSet [] "mock"
          ⟨true, false, false, false, false, false, false, false, false⟩)
      ∧ "mock" ∈ list_providers (regSet [] "mock"
          ⟨true, false, false, false, false, false, false, false, false⟩)) :=
  ⟨(register_provider_subclass_check [] "invalid"
      ⟨false, true, true, true, true, true, true, true, true⟩).1 rfl,
   (register_provider_subclass_check [] "mock"
      ⟨true, false, false, false, false, false, false, false, false⟩).2 rfl⟩

/-- One `d[k'] = v'` write keeps every other key's value and never removes
    a key. -/
theorem dictSet_preserves (l : List (String × PyVal)) (k k' : String)
    (v' : PyVal) :
    (k ≠ k' → dictLookup (dictSet l k' v') k = dictLookup l k)
    ∧ ((dictLookup l k).isSome = true →
       (dictLookup (dictSet l k' v') k).isSome = true) := by
  by_cases e : k' = k
  · subst e
    refine ⟨fun hne => absurd rfl hne, fun _ => ?_⟩
    rw [dictLookup_dictSet_self]; rfl
  · rw [dictLookup_dictSet_ne _ _ _ _ e]
    exact ⟨fun _ => rfl, fun h => h⟩

/-- **C9.** For every Request, applying the default request
    transformation and then a provider-specific one (claude with any hook
    context, or github) keeps every key of the original params present,
    with its original value whenever the key is none of the ones the
    transforms explicitly set (`timeout` for the default pass,
    `user_context` for claude, `per_page`/`sort` for github): no key is
    ever removed. -/
theorem request_params_preserved (defaultTimeout : Int) (req : MCPRequest)
    (hookCtx : Option (List (String × PyVal))) (k : String)
    (hk : (dictLookup req.params k).isSome = true) :
    ((dictLookup (transform_claude_request
        (apply_default_request_transformations defaultTimeout req) hookCtx
        ).params k).isSome = true
     ∧ (k ≠ "timeout" → k ≠ "user_context" →
        dictLookup (transform_claude_request
          (apply_default_request_transformations defaultTimeout req) hookCtx
          ).params k = dictLookup req.params k))
    ∧ ((dictLookup (transform_github_request
        (apply_default_request_transformations defaultTimeout req)
        ).params k).isSome = true
     ∧ (k ≠ "timeout" → k ≠ "per_page" → k ≠ "sort" →
        dictLookup (transform_github_request
          (apply_default_request_transformations defaultTimeout req)
          ).params k = dictLookup req.params k)) := by
  have hd : (dictLookup (apply_default_request_transformations defaultTimeout
        req).params k).isSome = true
      ∧ (k ≠ "timeout" →
         dictLookup (apply_default_request_transformations defaultTimeout
           req).params k = dictLookup req.params k) := by
    unfold apply_default_request_transformations
    cases h : dictLookup req.params "timeout" with
    | none =>
        have hne : k ≠ "timeout" := by
          intro e; rw [e, h] at hk; simp at hk
        refine ⟨?_, fun _ => (dictSet_preserves req.params k "timeout" _).1 hne⟩
        exact (dictSet_preserves req.params k "timeout" _).2 hk
    | some w => exact ⟨hk, fun _ => rfl⟩
  constructor
  · unfold transform_claude_request
    cases hookCtx with
    | none => exact ⟨hd.1, fun h1 _ => hd.2 h1⟩
    | some ctx =>
        by_cases hce : ctx.isEmpty
        · simp [hce]
          exact ⟨hd.1, fun h1 _ => hd.2 h1⟩
        · simp [hce]
          cases hu : dictLookup ctx "user_id" with
          | none => exact ⟨hd.1, fun h1 _ => hd.2 h1⟩
          | some uid =>
              refine ⟨?_, fun h1 h2 => ?_⟩
              · exact (dictSet_preserves _ k "user_context" _).2 hd.1
              · rw [(dictSet_preserves _ k "user_context" _).1 h2]
                exact hd.2 h1
  · unfold transform_github_request
    by_cases hm : (apply_default_request_transformations defaultTimeout
        req).method = "search_code"
    · simp [hm]
      refine ⟨?_, fun h1 h2 h3 => ?_⟩
      · exact (dictSet_preserves _ k "sort" _).2
          ((dictSet_preserves _ k "per_page" _).2 hd.1)
      · rw [(dictSet_preserves _ k "sort" _).1 h3,
            (dictSet_preserves _ k "per_page" _).1 h2]
        exact hd.2 h1
    · simp [hm]
      exact ⟨hd.1, fun h1 _ _ => hd.2 h1⟩

/-- A concrete `search_code` request used to instantiate theorems. -/
def searchReq : MCPRequest :=
  ⟨"search_code", [("q", PyVal.str "x")], Option.none⟩

/-- Witness for `request_params_preserved`: on a `search_code` request
    with params `{"q": "x"}` and a hook context carrying a user id, the
    key `"q"` survives both the claude and the github composition with its
    original value. -/
theorem request_params_preserved_witness :
    dictLookup (transform_claude_request
        (apply_default_request_transformations 30 searchReq)
        (some [("user_id", PyVal.str "u1")])).params "q"
      = dictLookup searchReq.params "q"
    ∧ dictLookup (transform_github_request
        (apply_default_request_transformations 30 searchReq)).params "q"
      = dictLookup searchReq.params "q" := by
  constructor
  · exact (request_params_preserved 30 searchReq
      (some [("user_id", PyVal.str "u1")]) "q" (by rfl)).1.2
      (by decide) (by decide)
  · exact (request_params_preserved 30 searchReq
      (some [("user_id", PyVal.str "u1")]) "q" (by rfl)).2.2
      (by decide) (by decide) (by decide)

/-- A sensitive-looking key with a truthy value always yields at least one
    pattern issue. -/
theorem patternIssues_ne_nil (k : String) (v : PyVal) (cp : String)
    (hs : keyIsSensitive k = true) (ht : v.truthy = true) :
    patternIssues k v cp ≠ [] := by
  intro hnil
  rw [patternIssues, List.filterMap_eq_nil_iff] at hnil
  obtain ⟨p, hp, hc⟩ := List.any_eq_true.mp hs
  have := hnil p hp
  simp [hc, ht] at this

/-- If some member entry contributes a non-empty issue list (pattern
    issues or nested recursion) at every possible path, the whole
    `check_dict` result is non-empty. -/
theorem checkSensitiveEntries_ne_of_mem (entries : List (String × PyVal))
    (path : String) (k : String) (v : PyVal) (hmem : (k, v) ∈ entries)
    (h : ∀ cp, patternIssues k v cp ≠ [] ∨ checkSensitiveNested v cp ≠ []) :
    checkSensitiveEntries entries path ≠ [] := by
  induction entries generalizing path with
  | nil => cases hmem
  | cons hd rest ih =>
      obtain ⟨k0, v0⟩ := hd
      intro hnil
      have hcons : checkSensitiveEntries ((k0, v0) :: rest) path
          = patternIssues k0 v0 (if path = "" then k0 else path ++ "." ++ k0)
            ++ checkSensitiveNested v0
                (if path = "" then k0 else path ++ "." ++ k0)
            ++ checkSensitiveEntries rest path := rfl
      rw [hcons] at hnil
      simp only [List.append_eq_nil] at hnil
      obtain ⟨⟨h1, h2⟩, h3⟩ := hnil
      rcases List.mem_cons.mp hmem with heq | hmem'
      · obtain ⟨hk, hv⟩ := Prod.mk.injEq .. ▸ heq
        subst hk; subst hv
        rcases h (if path = "" then k else path ++ "." ++ k) with hp | hn
        · exact hp h1
        · exact hn h2
      · exact ih path hmem' h3

/-- Any sensitive truthy entry reachable through nested dicts makes
    `check_dict` report at least one issue, whatever the ambient path. -/
theorem deep_sensitive_ne_nil (params : List (String × PyVal)) (k : String)
    (v : PyVal) (hdeep : DeepEntry params k v) :
    keyIsSensitive k = true → v.truthy = true →
    ∀ path, checkSensitiveEntries params path ≠ [] := by
  induction hdeep with
  | here hmem =>
      intro hs ht path
      exact checkSensitiveEntries_ne_of_mem _ path _ _ hmem
        (fun cp => Or.inl (patternIssues_ne_nil _ _ cp hs ht))
  | nested hmem hd ih =>
      intro hs ht path
      exact checkSensitiveEntries_ne_of_mem _ path _ _ hmem
        (fun cp => Or.inr (by
          rw [checkSensitiveNested]
          exact ih hs ht cp))

/-- **C10.** For every Request whose params contain, at any nesting depth
    of dictionary values, an entry whose key contains a sensitive pattern
    (`password`, `secret`, `token`, `key`, `credential` — substring of the
    lowered key, so an innocuous `keywords` also matches via `key`) with a
    truthy value, and whose rate-limit check passes, `pre_request` returns
    the security-rejection error — the request is never transformed,
    never tagged with a request id and never handed onward — while the
    rate limiter has already consumed one slot (counter incremented and
    re-armed). -/
theorem sensitive_params_rejected (rlCfg : RateLimitConfig)
    (blocked_methods : List String) (defaultTimeout : Int)
    (server : MCPServer) (req : MCPRequest)
    (context : Option (List (String × PyVal))) (t : Nat) (newReqId : String)
    (cache : Cache) (k : String) (v : PyVal)
    (hdeep : DeepEntry req.params k v)
    (hs : keyIsSensitive k = true) (ht : v.truthy = true)
    (hrl : cacheGetNat cache (rlKey server.id "request") t
      < rlCfg.request_requests) :
    (pre_request rlCfg blocked_methods defaultTimeout server req context t
        newReqId cache).1
      = Except.error ("Security check failed: "
          ++ String.intercalate ", " (check_request blocked_methods req))
    ∧ (pre_request rlCfg blocked_methods defaultTimeout server req context t
        newReqId cache).2
      = cacheSet cache (rlKey server.id "request")
          (cacheGetNat cache (rlKey server.id "request") t + 1)
          (t + rlCfg.request_window) := by
  have hcl : check_limit rlCfg server.id "request" t cache
      = (true, cacheSet cache (rlKey server.id "request")
          (cacheGetNat cache (rlKey server.id "request") t + 1)
          (t + rlCfg.request_window)) := by
    simp [check_limit, limitsFor, show ¬("request" = "connect") from by decide,
          Nat.not_le.mpr hrl]
  have hsec : check_request blocked_methods req ≠ [] := by
    intro hnil
    rw [check_request] at hnil
    simp only [List.append_eq_nil] at hnil
    obtain ⟨⟨hA, hB⟩, hC⟩ := hnil
    rw [check_sensitive_data] at hC
    exact deep_sensitive_ne_nil req.params k v hdeep hs ht "" hC
  have hie : (check_request blocked_methods req).isEmpty = false := by
    cases hc : check_request blocked_methods req with
    | nil => exact absurd hc hsec
    | cons a l => rfl
  unfold pre_request
  rw [hcl]
  simp [hie]

/-- Witness for `sensitive_params_rejected`: the innocuous key
    `"keywords"` (which contains `key`) with a truthy value gets the
    request rejected before transformation, while the request rate slot is
    consumed (counter 0 → 1, expiring at the default window 60). -/
theorem sensitive_params_rejected_witness :
    (pre_request {} [] 30 sampleServer
        ⟨"search", [("keywords", PyVal.str "contract law")], Option.none⟩
        Option.none 0 "rid-1" []).1
      = Except.error ("Security check failed: "
          ++ String.intercalate ", " (check_request []
              ⟨"search", [("keywords", PyVal.str "contract law")],
               Option.none⟩))
    ∧ (pre_request {} [] 30 sampleServer
        ⟨"search", [("keywords", PyVal.str "contract law")], Option.none⟩
        Option.none 0 "rid-1" []).2
      = cacheSet [] (rlKey sampleServer.id "request")
          (cacheGetNat [] (rlKey sampleServer.id "request") 0 + 1)
          (0 + 60) :=
  sensitive_params_rejected {} [] 30 sampleServer
    ⟨"search", [("keywords", PyVal.str "contract law")], Option.none⟩
    Option.none 0 "rid-1" [] "keywords" (PyVal.str "contract law")
    (DeepEntry.here (List.mem_singleton.mpr rfl))
    (by decide) (by decide) (by decide)

end MCPv2
